import Mathlib

/-!
Verification of `generate-png-icons.py` (CBV-Web repository).

The script converts a fixed SVG source into PNG icons at eight fixed sizes,
a 32×32 `favicon.ico` (via a temporary 32×32 PNG), and a 180×180
`apple-touch-icon.png`.  We embed the script shallowly: the filesystem is a
map from paths to file contents (recording only the data relevant to the
claims: format and pixel dimensions), the external library calls
(`cairosvg.svg2png`, `PIL.Image.open`, `Image.save`, `os.remove`) are
modelled by an oracle `Env` that says, for each call site, whether the call
succeeds or raises an exception carrying a message string.  Console output
is a list of printed lines; the script's control flow (per-item
`try`/`except` blocks, the success counter, the final exit code) is
translated line by line.
-/

namespace CBV

/-- Content of a file, recording the data the claims speak about:
a PNG raster with its pixel width and height, an ICO container with its
list of frame dimensions, or the SVG source. -/
inductive FileData where
  | png (w h : Nat)
  | ico (frames : List (Nat × Nat))
  | svg
deriving DecidableEq

/-- A filesystem: a map from path strings to file contents. -/
abbrev FS := String → Option FileData

/-- Writing a file: creates or overwrites the file at `p`. -/
def setF (fs : FS) (p : String) (d : FileData) : FS :=
  fun q => if q = p then some d else fs q

/-- Deleting a file at `p` (os.remove). -/
def delF (fs : FS) (p : String) : FS :=
  fun q => if q = p then none else fs q

/-- Oracle for the external library calls.  Each field corresponds to one
call site in the script; `none` means the call succeeds, `some e` means it
raises an exception whose text is `e`. -/
structure Env where
  /-- `cairosvg.svg2png` for the per-size icon at a given size (line 49). -/
  sizeRaster : Nat → Option String
  /-- `cairosvg.svg2png` writing the 32×32 favicon temp PNG (line 65). -/
  favRaster : Option String
  /-- `Image.open` of the favicon temp PNG (line 73). -/
  favOpen : Option String
  /-- `img.save(..., format=ICO, sizes=[(32,32)])` (line 74). -/
  favSave : Option String
  /-- `os.remove` of the favicon temp PNG (line 75). -/
  favRemove : Option String
  /-- `cairosvg.svg2png` for the 180×180 apple touch icon (line 86). -/
  touchRaster : Option String

/-- Program state: the filesystem, the console output so far (one entry per
printed line), and the running success counter. -/
structure St where
  fs : FS
  output : List String
  successCount : Nat

/-- Print one line. -/
def emit (st : St) (line : String) : St :=
  { st with output := st.output ++ [line] }

def svg_path : String := "app/public/icons/icon.svg"

def icons_dir : String := "app/public/icons"

/-- The fixed size list (line 27 of the script). -/
def sizes : List Nat := [72, 96, 128, 144, 152, 192, 384, 512]

def favicon_path : String := "app/public/favicon.ico"

def favicon_temp : String := "app/public/favicon-temp.png"

def apple_icon_path : String := "app/public/apple-touch-icon.png"

/-- Deterministic per-size output path: `f"{icons_dir}/icon-{size}x{size}.png"`. -/
def iconPath (size : Nat) : String :=
  icons_dir ++ "/icon-" ++ toString size ++ "x" ++ toString size ++ ".png"

/-- Seventy equals signs, the separator printed by the script
(`"=" * 70`). -/
def sep : String :=
  String.mk (List.replicate 70 '=')

/-- One iteration of the per-size loop (lines 44–60): a `try` block that
rasterizes the SVG at `size`×`size` to the deterministic path, prints a
success line and increments the counter; any exception is caught at this
item's boundary and logged with the exception text. -/
def doSize (env : Env) (st : St) (size : Nat) : St :=
  match env.sizeRaster size with
  | none =>
      let st := { st with fs := setF st.fs (iconPath size) (.png size size) }
      let st := emit st ("  ✓ Generated " ++ toString size ++ "x" ++ toString size ++ " icon")
      { st with successCount := st.successCount + 1 }
  | some e =>
      emit st ("  ❌ Failed to generate " ++ toString size ++ "x" ++ toString size ++ ": " ++ e)

/-- The favicon `try` block (lines 63–81): rasterize the SVG at 32×32 into
the temp PNG, open it, save it as a single-frame 32×32 ICO at
`favicon_path`, remove the temp PNG, then print success and count it.  The
first raising step jumps to the `except` handler; steps after the raising
one are not executed. -/
def doFavicon (env : Env) (st : St) : St :=
  match env.favRaster with
  | some e => emit st ("  ❌ Failed to generate favicon: " ++ e)
  | none =>
    let st1 := { st with fs := setF st.fs favicon_temp (.png 32 32) }
    match env.favOpen with
    | some e => emit st1 ("  ❌ Failed to generate favicon: " ++ e)
    | none =>
      match env.favSave with
      | some e => emit st1 ("  ❌ Failed to generate favicon: " ++ e)
      | none =>
        let st2 := { st1 with fs := setF st1.fs favicon_path (.ico [(32, 32)]) }
        match env.favRemove with
        | some e => emit st2 ("  ❌ Failed to generate favicon: " ++ e)
        | none =>
          let st3 := { st2 with fs := delF st2.fs favicon_temp }
          let st3 := emit st3 "  ✓ Generated favicon.ico"
          { st3 with successCount := st3.successCount + 1 }

/-- The apple-touch-icon `try` block (lines 84–97): rasterize at 180×180
directly to the final path. -/
def doApple (env : Env) (st : St) : St :=
  match env.touchRaster with
  | none =>
      let st := { st with fs := setF st.fs apple_icon_path (.png 180 180) }
      let st := emit st "  ✓ Generated apple-touch-icon.png"
      { st with successCount := st.successCount + 1 }
  | some e =>
      emit st ("  ❌ Failed to generate apple-touch-icon: " ++ e)

/-- The body of `generate_png_icons` (lines 20–113).  Returns the boolean
result (`success_count > 0`) and the final state.  If the source SVG is
missing, the function prints the diagnostic and returns `False` at once. -/
def generate_png_icons (env : Env) (fs0 : FS) : Bool × St :=
  let st : St := { fs := fs0, output := [], successCount := 0 }
  let st := emit (emit (emit (emit st sep) "CBV SYSTEM - PNG ICON GENERATOR") sep) ""
  if (fs0 svg_path).isSome then
    let st := emit st ("📁 Source SVG: " ++ svg_path)
    let st := emit st ("📁 Output directory: " ++ icons_dir)
    let st := emit st ""
    let st := sizes.foldl (doSize env) st
    let st := doFavicon env st
    let st := doApple env st
    let st := emit st ""
    let st := emit st sep
    let st := emit st "✅ ICON GENERATION COMPLETE"
    let st := emit st sep
    let st := emit st ""
    let st := emit st ("📊 Generated " ++ toString st.successCount ++ " icons successfully")
    let st := emit st ""
    let st := emit st "📝 Next steps:"
    let st := emit st "   1. Refresh your browser"
    let st := emit st "   2. Check browser console for PWA install prompt"
    let st := emit st "   3. Click install icon in address bar"
    let st := emit st ""
    let st := emit st sep
    (st.successCount != 0, st)
  else
    (false, emit st ("❌ SVG file not found: " ++ svg_path))

/-- The `__main__` block (lines 115–121): run `generate_png_icons` and exit
with code 0 if it returned `True`, else 1.  The modelled body raises no
uncaught exception, so the top-level `except` handler is never entered. -/
def main_run (env : Env) (fs0 : FS) : Nat × St :=
  let r := generate_png_icons env fs0
  (if r.1 then 0 else 1, r.2)

/-- Result of the module-level import block (lines 10–18). -/
structure LoadResult where
  /-- Console lines printed during the import block. -/
  importOutput : List String
  /-- Whether `pip install pillow cairosvg` was invoked via `os.system`. -/
  pipInstallInvoked : Bool
  /-- Whether the module loaded (retry import succeeded); `false` means the
  retried import raised an uncaught `ImportError` and the process died
  before `generate_png_icons` was defined or called. -/
  loaded : Bool

/-- The module-level import block (lines 10–18): try the imports; on
`ImportError`, print two diagnostics, invoke the pip-install subprocess,
and retry the imports outside any handler. -/
def module_import (importOk retryOk : Bool) : LoadResult :=
  if importOk then
    { importOutput := [], pipInstallInvoked := false, loaded := true }
  else
    { importOutput := ["❌ Required packages not installed", "Installing required packages..."],
      pipInstallInvoked := true,
      loaded := retryOk }

/-- The whole process: module import block, then the `__main__` block.
Returns (exit code, pip-install invoked?, generation ran?, final state).
If the retried import fails the interpreter dies with a nonzero exit before
any generation work: the filesystem is untouched and only the import-block
lines were printed. -/
def run_process (importOk retryOk : Bool) (env : Env) (fs0 : FS) :
    Nat × Bool × Bool × St :=
  let l := module_import importOk retryOk
  if l.loaded then
    let r := main_run env fs0
    (r.1, l.pipInstallInvoked, true,
      { r.2 with output := l.importOutput ++ r.2.output })
  else
    (1, l.pipInstallInvoked, false,
      { fs := fs0, output := l.importOutput, successCount := 0 })

/-- Initial filesystem for concrete runs: just the source SVG. -/
def fsInit : FS := fun p => if p = svg_path then some .svg else none

/-- The empty filesystem: the source SVG is absent. -/
def fsEmpty : FS := fun _ => none

/-- Environment in which every library call succeeds. -/
def envOK : Env :=
  { sizeRaster := fun _ => none, favRaster := none, favOpen := none,
    favSave := none, favRemove := none, touchRaster := none }

/-- Environment in which every call succeeds except the ICO save, which
raises. -/
def envSaveFail : Env :=
  { envOK with favSave := some "cannot write ICO" }

/-- Environment in which the rasterizer fails at every call site. -/
def envAllFail : Env :=
  { sizeRaster := fun _ => some "raster error", favRaster := some "raster error",
    favOpen := none, favSave := none, favRemove := none,
    touchRaster := some "raster error" }

/-- Environment in which everything succeeds except removing the favicon
temp file. -/
def envRemoveFail : Env :=
  { envOK with favRemove := some "permission denied" }

/-- The console line produced by the per-size loop iteration for `size`:
the success line when the rasterization succeeds, the failure line carrying
the exception text otherwise. -/
def sizeLine (env : Env) (size : Nat) : String :=
  match env.sizeRaster size with
  | none => "  ✓ Generated " ++ toString size ++ "x" ++ toString size ++ " icon"
  | some e => "  ❌ Failed to generate " ++ toString size ++ "x" ++ toString size ++ ": " ++ e

/-- The console line produced by the favicon block: the failure line
carries the text of the first raising step. -/
def favLine (env : Env) : String :=
  match env.favRaster with
  | some e => "  ❌ Failed to generate favicon: " ++ e
  | none =>
    match env.favOpen with
    | some e => "  ❌ Failed to generate favicon: " ++ e
    | none =>
      match env.favSave with
      | some e => "  ❌ Failed to generate favicon: " ++ e
      | none =>
        match env.favRemove with
        | some e => "  ❌ Failed to generate favicon: " ++ e
        | none => "  ✓ Generated favicon.ico"

/-- The console line produced by the apple-touch-icon block. -/
def appleLine (env : Env) : String :=
  match env.touchRaster with
  | none => "  ✓ Generated apple-touch-icon.png"
  | some e => "  ❌ Failed to generate apple-touch-icon: " ++ e

/-- The final value of the success counter: one per successful per-size
conversion, one for the favicon if all four of its steps succeeded, one for
the touch icon if its rasterization succeeded. -/
def totalCount (env : Env) : Nat :=
  sizes.countP (fun s => (env.sizeRaster s).isNone)
    + (if env.favRaster = none ∧ env.favOpen = none ∧ env.favSave = none
          ∧ env.favRemove = none then 1 else 0)
    + (if env.touchRaster = none then 1 else 0)

/-- The banner printed before the source-existence check. -/
def headerLines : List String :=
  [sep, "CBV SYSTEM - PNG ICON GENERATOR", sep, ""]

/-- The informational lines printed after the source-existence check. -/
def infoLines : List String :=
  ["📁 Source SVG: " ++ svg_path, "📁 Output directory: " ++ icons_dir, ""]

/-- The closing summary, parametrized by the reported success count. -/
def summaryLines (n : Nat) : List String :=
  ["", sep, "✅ ICON GENERATION COMPLETE", sep, "",
   "📊 Generated " ++ toString n ++ " icons successfully", "",
   "📝 Next steps:", "   1. Refresh your browser",
   "   2. Check browser console for PWA install prompt",
   "   3. Click install icon in address bar", "", sep]

theorem emit_fs (st : St) (l : String) : (emit st l).fs = st.fs := rfl

theorem emit_count (st : St) (l : String) : (emit st l).successCount = st.successCount := rfl

theorem emit_output (st : St) (l : String) : (emit st l).output = st.output ++ [l] := rfl

theorem setF_apply (fs : FS) (p : String) (d : FileData) (q : String) :
    setF fs p d q = if q = p then some d else fs q := rfl

theorem delF_apply (fs : FS) (p : String) (q : String) :
    delF fs p q = if q = p then none else fs q := rfl

theorem doSize_output (env : Env) (st : St) (size : Nat) :
    (doSize env st size).output = st.output ++ [sizeLine env size] := by
  cases h : env.sizeRaster size <;> simp [doSize, sizeLine, emit, h]

theorem doSize_count (env : Env) (st : St) (size : Nat) :
    (doSize env st size).successCount
      = st.successCount + (if (env.sizeRaster size).isNone then 1 else 0) := by
  cases h : env.sizeRaster size <;> simp [doSize, emit, h]

theorem doSize_fs_ne (env : Env) (st : St) (size : Nat) (p : String)
    (hp : p ≠ iconPath size) : (doSize env st size).fs p = st.fs p := by
  cases h : env.sizeRaster size <;> simp [doSize, emit, setF, h, hp]

theorem doSize_fs_eq (env : Env) (st : St) (size : Nat) :
    (doSize env st size).fs (iconPath size)
      = if (env.sizeRaster size).isNone then some (.png size size)
        else st.fs (iconPath size) := by
  cases h : env.sizeRaster size <;> simp [doSize, emit, setF, h]

theorem foldl_doSize_output (env : Env) (l : List Nat) :
    ∀ st : St, (l.foldl (doSize env) st).output = st.output ++ l.map (sizeLine env) := by
  induction l with
  | nil => intro st; simp
  | cons a t ih =>
      intro st
      simp only [List.foldl_cons, List.map_cons, ih, doSize_output]
      simp

theorem foldl_doSize_count (env : Env) (l : List Nat) :
    ∀ st : St, (l.foldl (doSize env) st).successCount
      = st.successCount + l.countP (fun s => (env.sizeRaster s).isNone) := by
  induction l with
  | nil => intro st; simp
  | cons a t ih =>
      intro st
      simp only [List.foldl_cons, ih, doSize_count, List.countP_cons]
      omega

theorem foldl_doSize_fs_not_mem (env : Env) (l : List Nat) (p : String)
    (hp : p ∉ l.map iconPath) :
    ∀ st : St, (l.foldl (doSize env) st).fs p = st.fs p := by
  induction l with
  | nil => intro st; simp
  | cons a t ih =>
      intro st
      simp only [List.map_cons, List.mem_cons, not_or] at hp
      simp only [List.foldl_cons, ih hp.2, doSize_fs_ne env st a p hp.1]

theorem foldl_doSize_fs_mem (env : Env) (l : List Nat) (size : Nat)
    (hnd : (l.map iconPath).Nodup) (hs : size ∈ l) :
    ∀ st : St, (l.foldl (doSize env) st).fs (iconPath size)
      = if (env.sizeRaster size).isNone then some (.png size size)
        else st.fs (iconPath size) := by
  induction l with
  | nil => cases hs
  | cons a t ih =>
      intro st
      simp only [List.map_cons, List.nodup_cons] at hnd
      rcases List.mem_cons.mp hs with rfl | hmem
      · have hnot : iconPath size ∉ t.map iconPath := hnd.1
        simp only [List.foldl_cons, foldl_doSize_fs_not_mem env t _ hnot, doSize_fs_eq]
      · have hne : iconPath size ≠ iconPath a := by
          intro hEq
          exact hnd.1 (hEq ▸ List.mem_map_of_mem iconPath hmem)
        simp only [List.foldl_cons, ih hnd.2 hmem, doSize_fs_ne env st a _ hne]

theorem doFavicon_output (env : Env) (st : St) :
    (doFavicon env st).output = st.output ++ [favLine env] := by
  cases h1 : env.favRaster <;> cases h2 : env.favOpen <;> cases h3 : env.favSave <;>
    cases h4 : env.favRemove <;> simp_all [doFavicon, favLine, emit]

theorem doFavicon_count (env : Env) (st : St) :
    (doFavicon env st).successCount
      = st.successCount
        + (if env.favRaster = none ∧ env.favOpen = none ∧ env.favSave = none
              ∧ env.favRemove = none then 1 else 0) := by
  cases h1 : env.favRaster <;> cases h2 : env.favOpen <;> cases h3 : env.favSave <;>
    cases h4 : env.favRemove <;> simp_all [doFavicon, emit]

theorem doFavicon_fs_other (env : Env) (st : St) (p : String)
    (h1 : p ≠ favicon_temp) (h2 : p ≠ favicon_path) :
    (doFavicon env st).fs p = st.fs p := by
  cases h1 : env.favRaster <;> cases h2 : env.favOpen <;> cases h3 : env.favSave <;>
    cases h4 : env.favRemove <;> simp_all [doFavicon, emit, setF, delF]

theorem doFavicon_fs_temp (env : Env) (st : St) :
    (doFavicon env st).fs favicon_temp
      = if env.favRaster = none then
          (if env.favOpen = none ∧ env.favSave = none ∧ env.favRemove = none
            then none else some (.png 32 32))
        else st.fs favicon_temp := by
  have hne : favicon_temp ≠ favicon_path := by decide
  cases h1 : env.favRaster <;> cases h2 : env.favOpen <;> cases h3 : env.favSave <;>
    cases h4 : env.favRemove <;> simp_all [doFavicon, emit, setF, delF]

theorem doFavicon_fs_fav (env : Env) (st : St) :
    (doFavicon env st).fs favicon_path
      = if env.favRaster = none ∧ env.favOpen = none ∧ env.favSave = none
          then some (.ico [(32, 32)]) else st.fs favicon_path := by
  have hne : favicon_path ≠ favicon_temp := by decide
  cases h1 : env.favRaster <;> cases h2 : env.favOpen <;> cases h3 : env.favSave <;>
    cases h4 : env.favRemove <;> simp_all [doFavicon, emit, setF, delF]

theorem doApple_output (env : Env) (st : St) :
    (doApple env st).output = st.output ++ [appleLine env] := by
  cases h : env.touchRaster <;> simp [doApple, appleLine, emit, h]

theorem doApple_count (env : Env) (st : St) :
    (doApple env st).successCount
      = st.successCount + (if env.touchRaster = none then 1 else 0) := by
  cases h : env.touchRaster <;> simp [doApple, emit, h]

theorem doApple_fs_other (env : Env) (st : St) (p : String)
    (hp : p ≠ apple_icon_path) : (doApple env st).fs p = st.fs p := by
  cases h : env.touchRaster <;> simp [doApple, emit, setF, h, hp]

theorem doApple_fs_eq (env : Env) (st : St) :
    (doApple env st).fs apple_icon_path
      = if env.touchRaster = none then some (.png 180 180)
        else st.fs apple_icon_path := by
  cases h : env.touchRaster <;> simp [doApple, emit, setF, h]

theorem iconPaths_nodup : (sizes.map iconPath).Nodup := by decide

theorem iconPath_ne_special : ∀ s ∈ sizes,
    iconPath s ≠ favicon_temp ∧ iconPath s ≠ favicon_path
      ∧ iconPath s ≠ apple_icon_path ∧ iconPath s ≠ svg_path := by decide

theorem favicon_temp_not_iconPath : favicon_temp ∉ sizes.map iconPath := by decide

theorem favicon_path_not_iconPath : favicon_path ∉ sizes.map iconPath := by decide

theorem apple_not_iconPath : apple_icon_path ∉ sizes.map iconPath := by decide

theorem svg_not_iconPath : svg_path ∉ sizes.map iconPath := by decide

theorem specials_distinct :
    favicon_temp ≠ favicon_path ∧ favicon_temp ≠ apple_icon_path
      ∧ favicon_path ≠ apple_icon_path ∧ svg_path ≠ favicon_temp
      ∧ svg_path ≠ favicon_path ∧ svg_path ≠ apple_icon_path := by decide

theorem generate_output_eq (env : Env) (fs0 : FS) (h : (fs0 svg_path).isSome) :
    (generate_png_icons env fs0).2.output
      = headerLines ++ infoLines ++ sizes.map (sizeLine env)
          ++ [favLine env, appleLine env] ++ summaryLines (totalCount env) := by
  simp only [generate_png_icons, h, if_true]
  simp only [emit_output, emit_count, emit_fs, doApple_output, doFavicon_output,
    foldl_doSize_output, doApple_count, doFavicon_count, foldl_doSize_count]
  simp [headerLines, infoLines, summaryLines, totalCount]

theorem generate_count_eq (env : Env) (fs0 : FS) (h : (fs0 svg_path).isSome) :
    (generate_png_icons env fs0).2.successCount = totalCount env := by
  simp only [generate_png_icons, h, if_true, emit_count]
  simp only [emit, doApple_count, doFavicon_count, foldl_doSize_count, totalCount,
    Nat.zero_add]

theorem generate_result_eq (env : Env) (fs0 : FS) (h : (fs0 svg_path).isSome) :
    (generate_png_icons env fs0).1 = (totalCount env != 0) := by
  simp only [generate_png_icons, h, if_true]
  simp only [emit, doApple_count, doFavicon_count, foldl_doSize_count, totalCount,
    Nat.zero_add]

theorem generate_fs_icon (env : Env) (fs0 : FS) (h : (fs0 svg_path).isSome)
    (size : Nat) (hs : size ∈ sizes) :
    (generate_png_icons env fs0).2.fs (iconPath size)
      = if (env.sizeRaster size).isNone then some (.png size size)
        else fs0 (iconPath size) := by
  obtain ⟨h1, h2, h3, _⟩ := iconPath_ne_special size hs
  simp only [generate_png_icons, h, if_true, emit_fs]
  rw [doApple_fs_other env _ _ h3, doFavicon_fs_other env _ _ h1 h2,
    foldl_doSize_fs_mem env sizes size iconPaths_nodup hs]
  simp [emit_fs]

theorem generate_fs_temp (env : Env) (fs0 : FS) (h : (fs0 svg_path).isSome) :
    (generate_png_icons env fs0).2.fs favicon_temp
      = if env.favRaster = none then
          (if env.favOpen = none ∧ env.favSave = none ∧ env.favRemove = none
            then none else some (.png 32 32))
        else fs0 favicon_temp := by
  simp only [generate_png_icons, h, if_true, emit_fs]
  rw [doApple_fs_other env _ _ specials_distinct.2.1, doFavicon_fs_temp,
    foldl_doSize_fs_not_mem env sizes _ favicon_temp_not_iconPath]
  simp [emit_fs]

theorem generate_fs_fav (env : Env) (fs0 : FS) (h : (fs0 svg_path).isSome) :
    (generate_png_icons env fs0).2.fs favicon_path
      = if env.favRaster = none ∧ env.favOpen = none ∧ env.favSave = none
          then some (.ico [(32, 32)]) else fs0 favicon_path := by
  simp only [generate_png_icons, h, if_true, emit_fs]
  rw [doApple_fs_other env _ _ specials_distinct.2.2.1, doFavicon_fs_fav,
    foldl_doSize_fs_not_mem env sizes _ favicon_path_not_iconPath]
  simp [emit_fs]

theorem generate_fs_apple (env : Env) (fs0 : FS) (h : (fs0 svg_path).isSome) :
    (generate_png_icons env fs0).2.fs apple_icon_path
      = if env.touchRaster = none then some (.png 180 180)
        else fs0 apple_icon_path := by
  have h1 : apple_icon_path ≠ favicon_temp := specials_distinct.2.1.symm
  have h2 : apple_icon_path ≠ favicon_path := specials_distinct.2.2.1.symm
  simp only [generate_png_icons, h, if_true, emit_fs]
  rw [doApple_fs_eq, doFavicon_fs_other env _ _ h1 h2,
    foldl_doSize_fs_not_mem env sizes _ apple_not_iconPath]
  simp [emit_fs]

theorem generate_fs_frame (env : Env) (fs0 : FS) (h : (fs0 svg_path).isSome)
    (p : String) (hp0 : p ∉ sizes.map iconPath) (hp1 : p ≠ favicon_temp)
    (hp2 : p ≠ favicon_path) (hp3 : p ≠ apple_icon_path) :
    (generate_png_icons env fs0).2.fs p = fs0 p := by
  simp only [generate_png_icons, h, if_true, emit_fs]
  rw [doApple_fs_other env _ _ hp3, doFavicon_fs_other env _ _ hp1 hp2,
    foldl_doSize_fs_not_mem env sizes _ hp0]
  simp [emit_fs]

theorem generate_missing (env : Env) (fs0 : FS) (h : fs0 svg_path = none) :
    (generate_png_icons env fs0).1 = false
      ∧ (generate_png_icons env fs0).2.fs = fs0
      ∧ (generate_png_icons env fs0).2.output
          = headerLines ++ ["❌ SVG file not found: " ++ svg_path]
      ∧ (generate_png_icons env fs0).2.successCount = 0 := by
  simp [generate_png_icons, h, emit, headerLines]

theorem main_run_snd (env : Env) (fs0 : FS) :
    (main_run env fs0).2 = (generate_png_icons env fs0).2 := rfl

theorem main_exit_eq (env : Env) (fs0 : FS) (h : (fs0 svg_path).isSome) :
    (main_run env fs0).1 = if totalCount env = 0 then 1 else 0 := by
  simp only [main_run, generate_result_eq env fs0 h]
  by_cases h0 : totalCount env = 0 <;> simp [h0]

/-- Claim C1 counterexample: in a run where the 32×32 rasterization and the
`Image.open` succeed but the ICO save raises, the `os.remove` on line 75 is
never executed (it sits after the save inside the same `try` block, with no
`finally`), so the temporary raster still exists after the process
terminates, and no `favicon.ico` was written. -/
theorem claim_C1_counterexample :
    (main_run envSaveFail fsInit).2.fs favicon_temp = some (.png 32 32)
      ∧ (main_run envSaveFail fsInit).2.fs favicon_path = none := by decide

/-- Claim C1 (amended): the temporary raster is deleted only on the path
where the `Image.open`, the ICO save, and the removal itself all succeed;
if the ICO conversion or the removal raises, the temporary raster remains
on disk after the process terminates.  Precisely: starting from a
filesystem with the source present and no temp file, the temp file is
absent at exit iff the favicon rasterization failed (the temp was never
created) or all three later steps succeeded. -/
theorem claim_C1_amended (env : Env) (fs0 : FS) (h : (fs0 svg_path).isSome)
    (h0 : fs0 favicon_temp = none) :
    (main_run env fs0).2.fs favicon_temp = none
      ↔ (env.favRaster ≠ none
          ∨ (env.favOpen = none ∧ env.favSave = none ∧ env.favRemove = none)) := by
  rw [main_run_snd, generate_fs_temp env fs0 h]
  split_ifs with hr hrest
  · simp [hr, hrest]
  · simp [hr, hrest]
  · simp [h0, hr]

/-- Claim C1 amended, witnessed at the all-success environment: the temp
file is indeed absent after a fully successful run. -/
theorem claim_C1_witness :
    (fsInit svg_path).isSome = true ∧ fsInit favicon_temp = none
      ∧ ((main_run envOK fsInit).2.fs favicon_temp = none
          ↔ (envOK.favRaster ≠ none
              ∨ (envOK.favOpen = none ∧ envOK.favSave = none
                  ∧ envOK.favRemove = none))) :=
  ⟨by decide, by decide, claim_C1_amended envOK fsInit (by decide) (by decide)⟩

/-- Claim C2: every size in the fixed list is attempted — whatever mix of
failures occurs, each size's success-or-failure line is printed, a failing
size's line carries the underlying exception text, and the favicon and
apple-touch-icon operations after the loop are attempted as well (their
lines are printed); no per-item exception escapes its item. -/
theorem claim_C2 (env : Env) (fs0 : FS) (h : (fs0 svg_path).isSome) :
    (∀ size ∈ sizes, sizeLine env size ∈ (main_run env fs0).2.output)
      ∧ (∀ size ∈ sizes, ∀ e, env.sizeRaster size = some e →
          ("  ❌ Failed to generate " ++ toString size ++ "x" ++ toString size
              ++ ": " ++ e) ∈ (main_run env fs0).2.output)
      ∧ favLine env ∈ (main_run env fs0).2.output
      ∧ appleLine env ∈ (main_run env fs0).2.output := by
  rw [main_run_snd, generate_output_eq env fs0 h]
  refine ⟨?_, ?_, ?_, ?_⟩
  · intro size hs
    exact List.mem_append_left _ (List.mem_append_left _
      (List.mem_append_right _ (List.mem_map_of_mem _ hs)))
  · intro size hs e he
    have : sizeLine env size
        = "  ❌ Failed to generate " ++ toString size ++ "x" ++ toString size
            ++ ": " ++ e := by
      simp [sizeLine, he]
    rw [← this]
    exact List.mem_append_left _ (List.mem_append_left _
      (List.mem_append_right _ (List.mem_map_of_mem _ hs)))
  · simp
  · simp

/-- Claim C2 witness: with every library call failing, the 72×72 failure
line carrying the exception text is still printed. -/
theorem claim_C2_witness :
    (fsInit svg_path).isSome = true
      ∧ ("  ❌ Failed to generate " ++ toString 72 ++ "x" ++ toString 72
          ++ ": " ++ "raster error") ∈ (main_run envAllFail fsInit).2.output :=
  ⟨by decide, (claim_C2 envAllFail fsInit (by decide)).2.1 72 (by decide)
    "raster error" rfl⟩

/-- Claim C3: given the source exists, the exit code is 0 iff at least one
of the ten attempted outputs succeeded (a per-size conversion, the full
favicon pipeline, or the touch icon); and if every conversion fails, the
exit code is 1, the success counter is 0, and the summary reports 0. -/
theorem claim_C3 (env : Env) (fs0 : FS) (h : (fs0 svg_path).isSome) :
    ((main_run env fs0).1 = 0
        ↔ ((∃ s ∈ sizes, env.sizeRaster s = none)
            ∨ (env.favRaster = none ∧ env.favOpen = none ∧ env.favSave = none
                ∧ env.favRemove = none)
            ∨ env.touchRaster = none))
      ∧ ((∀ s ∈ sizes, env.sizeRaster s ≠ none) → env.favRaster ≠ none →
          env.touchRaster ≠ none →
          (main_run env fs0).1 = 1
            ∧ (main_run env fs0).2.successCount = 0
            ∧ ("📊 Generated " ++ toString 0 ++ " icons successfully")
                ∈ (main_run env fs0).2.output) := by
  have hpos : totalCount env ≠ 0
      ↔ ((∃ s ∈ sizes, env.sizeRaster s = none)
          ∨ (env.favRaster = none ∧ env.favOpen = none ∧ env.favSave = none
              ∧ env.favRemove = none)
          ∨ env.touchRaster = none) := by
    rw [← Nat.pos_iff_ne_zero, totalCount]
    constructor
    · intro hp
      by_cases h1 : ∃ s ∈ sizes, env.sizeRaster s = none
      · exact Or.inl h1
      · by_cases h2 : env.favRaster = none ∧ env.favOpen = none
            ∧ env.favSave = none ∧ env.favRemove = none
        · exact Or.inr (Or.inl h2)
        · by_cases h3 : env.touchRaster = none
          · exact Or.inr (Or.inr h3)
          · exfalso
            have hc : sizes.countP (fun s => (env.sizeRaster s).isNone) = 0 := by
              rw [List.countP_eq_zero]
              intro s hs
              simp only [Option.isNone_iff_eq_none]
              intro hnone
              exact h1 ⟨s, hs, by simpa using hnone⟩
            rw [hc, if_neg h2, if_neg h3] at hp
            omega
    · intro hd
      rcases hd with ⟨s, hs, hnone⟩ | h2 | h3
      · have : 0 < sizes.countP (fun s => (env.sizeRaster s).isNone) := by
          rw [List.countP_pos_iff]
          exact ⟨s, hs, by simp [hnone]⟩
        omega
      · rw [if_pos h2]; omega
      · rw [if_pos h3]; omega
  constructor
  · rw [main_exit_eq env fs0 h, ← hpos]
    by_cases h0 : totalCount env = 0 <;> simp [h0]
  · intro hsz hfav htouch
    have hc0 : totalCount env = 0 := by
      rw [totalCount]
      have hc : sizes.countP (fun s => (env.sizeRaster s).isNone) = 0 := by
        rw [List.countP_eq_zero]
        intro s hs
        simp only [Option.isNone_iff_eq_none]
        exact hsz s hs
      have h2 : ¬(env.favRaster = none ∧ env.favOpen = none ∧ env.favSave = none
          ∧ env.favRemove = none) := fun hcontra => hfav hcontra.1
      rw [hc, if_neg h2, if_neg htouch]
    refine ⟨by rw [main_exit_eq env fs0 h, if_pos hc0], ?_, ?_⟩
    · rw [main_run_snd, generate_count_eq env fs0 h, hc0]
    · rw [main_run_snd, generate_output_eq env fs0 h, hc0]
      simp [summaryLines]

/-- Claim C3 witness: with every conversion failing, the exit code is 1 and
the reported count is 0; the right-hand side of the iff is also checked
false there through the first conjunct. -/
theorem claim_C3_witness :
    (fsInit svg_path).isSome = true
      ∧ (main_run envAllFail fsInit).1 = 1
      ∧ (main_run envAllFail fsInit).2.successCount = 0
      ∧ ("📊 Generated " ++ toString 0 ++ " icons successfully")
          ∈ (main_run envAllFail fsInit).2.output :=
  ⟨by decide,
    (claim_C3 envAllFail fsInit (by decide)).2
      (by intro s _ hcontra; simp [envAllFail] at hcontra)
      (by simp [envAllFail, envOK]) (by simp [envAllFail, envOK])⟩

/-- Claim C4: if the source SVG is absent, the process prints the
diagnostic naming the missing path, changes no file (in particular produces
zero outputs), attempts no conversion (the whole console output is the
banner plus the diagnostic — no per-item line), and exits 1. -/
theorem claim_C4 (env : Env) (fs0 : FS) (h : fs0 svg_path = none) :
    (main_run env fs0).1 = 1
      ∧ ("❌ SVG file not found: " ++ svg_path) ∈ (main_run env fs0).2.output
      ∧ (∀ p, (main_run env fs0).2.fs p = fs0 p)
      ∧ (main_run env fs0).2.output
          = headerLines ++ ["❌ SVG file not found: " ++ svg_path]
      ∧ (main_run env fs0).2.successCount = 0 := by
  obtain ⟨h1, h2, h3, h4⟩ := generate_missing env fs0 h
  refine ⟨by simp [main_run, h1], ?_, ?_, ?_, ?_⟩
  · rw [main_run_snd, h3]; simp
  · intro p
    rw [main_run_snd, h2]
  · rw [main_run_snd, h3]
  · rw [main_run_snd, h4]

/-- Claim C4 witness: on an empty filesystem the run exits 1 and prints the
diagnostic. -/
theorem claim_C4_witness :
    fsEmpty svg_path = none
      ∧ (main_run envOK fsEmpty).1 = 1
      ∧ ("❌ SVG file not found: " ++ svg_path) ∈ (main_run envOK fsEmpty).2.output :=
  ⟨by decide, (claim_C4 envOK fsEmpty (by decide)).1,
    (claim_C4 envOK fsEmpty (by decide)).2.1⟩

/-- Claim C5: the fixed ordered size list is {72, 96, 128, 144, 152, 192,
384, 512}; the deterministic output names are `icon-{size}x{size}.png` in
the icons directory; the per-size attempts appear in the console output in
list order; and each successful conversion writes a `size`×`size` PNG at
its deterministic path. -/
theorem claim_C5 (env : Env) (fs0 : FS) (h : (fs0 svg_path).isSome) :
    sizes = [72, 96, 128, 144, 152, 192, 384, 512]
      ∧ sizes.map iconPath
          = ["app/public/icons/icon-72x72.png", "app/public/icons/icon-96x96.png",
             "app/public/icons/icon-128x128.png", "app/public/icons/icon-144x144.png",
             "app/public/icons/icon-152x152.png", "app/public/icons/icon-192x192.png",
             "app/public/icons/icon-384x384.png", "app/public/icons/icon-512x512.png"]
      ∧ (∃ pre post, (main_run env fs0).2.output
          = pre ++ sizes.map (sizeLine env) ++ post)
      ∧ (∀ size ∈ sizes, env.sizeRaster size = none →
          (main_run env fs0).2.fs (iconPath size) = some (.png size size)) := by
  refine ⟨rfl, by decide, ?_, ?_⟩
  · refine ⟨headerLines ++ infoLines,
      [favLine env, appleLine env] ++ summaryLines (totalCount env), ?_⟩
    rw [main_run_snd, generate_output_eq env fs0 h]
    simp [List.append_assoc]
  · intro size hs hnone
    rw [main_run_snd, generate_fs_icon env fs0 h size hs]
    simp [hnone]

/-- Claim C5 witness: in a fully successful run from the source-only
filesystem, the 72×72 icon is written at its deterministic path. -/
theorem claim_C5_witness :
    (fsInit svg_path).isSome = true
      ∧ (main_run envOK fsInit).2.fs (iconPath 72) = some (.png 72 72) :=
  ⟨by decide, (claim_C5 envOK fsInit (by decide)).2.2.2 72 (by decide) rfl⟩

/-- Claim C6: every file the run changes has the dimensions its path
demands — a per-size icon path holds a `size`×`size` PNG, `favicon.ico`
holds a single-frame 32×32 ICO, the apple touch icon is a 180×180 PNG (the
only other touchable path is the favicon temp file, which if present is the
32×32 raster). -/
theorem claim_C6 (env : Env) (fs0 : FS) (h : (fs0 svg_path).isSome) (p : String)
    (hch : (main_run env fs0).2.fs p ≠ fs0 p) :
    (∃ size ∈ sizes, p = iconPath size
        ∧ (main_run env fs0).2.fs p = some (.png size size))
      ∨ (p = favicon_path ∧ (main_run env fs0).2.fs p = some (.ico [(32, 32)]))
      ∨ (p = apple_icon_path ∧ (main_run env fs0).2.fs p = some (.png 180 180))
      ∨ (p = favicon_temp
          ∧ ((main_run env fs0).2.fs p = some (.png 32 32)
              ∨ (main_run env fs0).2.fs p = none)) := by
  rw [main_run_snd] at hch ⊢
  by_cases h0 : p ∈ sizes.map iconPath
  · obtain ⟨size, hsz, hpe⟩ := List.mem_map.mp h0
    subst hpe
    left
    refine ⟨size, hsz, rfl, ?_⟩
    rw [generate_fs_icon env fs0 h size hsz] at hch ⊢
    by_cases hn : (env.sizeRaster size).isNone
    · simp [hn]
    · exact absurd (by simp [hn]) hch
  · by_cases h1 : p = favicon_temp
    · subst h1
      right; right; right
      refine ⟨rfl, ?_⟩
      rw [generate_fs_temp env fs0 h] at hch ⊢
      split_ifs at hch ⊢ with hr hrest
      · exact Or.inr rfl
      · exact Or.inl rfl
      · exact absurd rfl hch
    · by_cases h2 : p = favicon_path
      · subst h2
        right; left
        refine ⟨rfl, ?_⟩
        rw [generate_fs_fav env fs0 h] at hch ⊢
        split_ifs at hch ⊢ with hc
        · rfl
        · exact absurd rfl hch
      · by_cases h3 : p = apple_icon_path
        · subst h3
          right; right; left
          refine ⟨rfl, ?_⟩
          rw [generate_fs_apple env fs0 h] at hch ⊢
          split_ifs at hch ⊢ with hc
          · rfl
          · exact absurd rfl hch
        · exact absurd (generate_fs_frame env fs0 h p h0 h1 h2 h3) hch

/-- Claim C6 witness: the changed file at the 72×72 icon path is indeed a
72×72 PNG. -/
theorem claim_C6_witness :
    (fsInit svg_path).isSome = true
      ∧ ((main_run envOK fsInit).2.fs (iconPath 72) ≠ fsInit (iconPath 72))
      ∧ ((∃ size ∈ sizes, iconPath 72 = iconPath size
            ∧ (main_run envOK fsInit).2.fs (iconPath 72) = some (.png size size))
          ∨ (iconPath 72 = favicon_path
              ∧ (main_run envOK fsInit).2.fs (iconPath 72) = some (.ico [(32, 32)]))
          ∨ (iconPath 72 = apple_icon_path
              ∧ (main_run envOK fsInit).2.fs (iconPath 72) = some (.png 180 180))
          ∨ (iconPath 72 = favicon_temp
              ∧ ((main_run envOK fsInit).2.fs (iconPath 72) = some (.png 32 32)
                  ∨ (main_run envOK fsInit).2.fs (iconPath 72) = none))) :=
  ⟨by decide, by decide, claim_C6 envOK fsInit (by decide) (iconPath 72) (by decide)⟩

/-- Claim C7: when the favicon rasterization, the open, and the ICO save
succeed, the favicon operation has produced a single-frame 32×32 ICO at
the fixed top-level `app/public/favicon.ico`; the conversion goes through
the temporary 32×32 raster at `app/public/favicon-temp.png` — visible
whenever the removal step raises, leaving the 32×32 intermediate on
disk. -/
theorem claim_C7 (env : Env) (fs0 : FS) (h : (fs0 svg_path).isSome)
    (hr : env.favRaster = none) (ho : env.favOpen = none)
    (hs : env.favSave = none) :
    favicon_path = "app/public/favicon.ico"
      ∧ favicon_temp = "app/public/favicon-temp.png"
      ∧ (main_run env fs0).2.fs favicon_path = some (.ico [(32, 32)])
      ∧ (env.favRemove ≠ none →
          (main_run env fs0).2.fs favicon_temp = some (.png 32 32)) := by
  refine ⟨rfl, rfl, ?_, ?_⟩
  · rw [main_run_snd, generate_fs_fav env fs0 h]
    simp [hr, ho, hs]
  · intro hrem
    rw [main_run_snd, generate_fs_temp env fs0 h]
    simp [hr, ho, hs, hrem]

/-- Claim C7 witness: with only the removal failing, the 32×32 single-frame
ICO is at `favicon.ico` and the 32×32 temp raster is visible on disk. -/
theorem claim_C7_witness :
    (fsInit svg_path).isSome = true
      ∧ (main_run envRemoveFail fsInit).2.fs favicon_path = some (.ico [(32, 32)])
      ∧ (main_run envRemoveFail fsInit).2.fs favicon_temp = some (.png 32 32) :=
  ⟨by decide, (claim_C7 envRemoveFail fsInit (by decide) rfl rfl rfl).2.2.1,
    (claim_C7 envRemoveFail fsInit (by decide) rfl rfl rfl).2.2.2 (by decide)⟩

/-- Claim C8: running the process a second time over the filesystem left by
the first run (same source, same environment) yields the same exit code and
the identical filesystem: every output path is rewritten deterministically,
overwriting the prior file without error. -/
theorem claim_C8 (env : Env) (fs0 : FS) (h : (fs0 svg_path).isSome) :
    (main_run env (main_run env fs0).2.fs).1 = (main_run env fs0).1
      ∧ ∀ p, (main_run env (main_run env fs0).2.fs).2.fs p
          = (main_run env fs0).2.fs p := by
  have hsvg1 : (generate_png_icons env fs0).2.fs svg_path = fs0 svg_path :=
    generate_fs_frame env fs0 h svg_path svg_not_iconPath
      specials_distinct.2.2.2.1 specials_distinct.2.2.2.2.1
      specials_distinct.2.2.2.2.2
  have h1 : ((generate_png_icons env fs0).2.fs svg_path).isSome := by
    rw [hsvg1]; exact h
  constructor
  · rw [main_run_snd env fs0, main_exit_eq env _ h1, main_exit_eq env fs0 h]
  · intro p
    show (generate_png_icons env (generate_png_icons env fs0).2.fs).2.fs p
      = (generate_png_icons env fs0).2.fs p
    by_cases h0 : p ∈ sizes.map iconPath
    · obtain ⟨size, hsz, hpe⟩ := List.mem_map.mp h0
      subst hpe
      rw [generate_fs_icon env _ h1 size hsz, generate_fs_icon env fs0 h size hsz]
      by_cases hn : (env.sizeRaster size).isNone <;> simp [hn]
    · by_cases hp1 : p = favicon_temp
      · subst hp1
        rw [generate_fs_temp env _ h1, generate_fs_temp env fs0 h]
        split_ifs <;> rfl
      · by_cases hp2 : p = favicon_path
        · subst hp2
          rw [generate_fs_fav env _ h1, generate_fs_fav env fs0 h]
          split_ifs <;> rfl
        · by_cases hp3 : p = apple_icon_path
          · subst hp3
            rw [generate_fs_apple env _ h1, generate_fs_apple env fs0 h]
            split_ifs <;> rfl
          · exact generate_fs_frame env _ h1 p h0 hp1 hp2 hp3

/-- Claim C8 witness: in the all-success environment the second run exits
with the first run's code and leaves the 72×72 icon identical. -/
theorem claim_C8_witness :
    (fsInit svg_path).isSome = true
      ∧ (main_run envOK (main_run envOK fsInit).2.fs).1 = (main_run envOK fsInit).1
      ∧ (main_run envOK (main_run envOK fsInit).2.fs).2.fs (iconPath 72)
          = (main_run envOK fsInit).2.fs (iconPath 72) :=
  ⟨by decide, (claim_C8 envOK fsInit (by decide)).1,
    (claim_C8 envOK fsInit (by decide)).2 (iconPath 72)⟩

/-- Claim C9: the favicon contributes to the success counter exactly when
all of its steps — the 32×32 rasterization, the open, the ICO save, and the
temp-file removal — succeed (first conjunct: the counter's closed form has
a favicon summand of 1 under precisely that conjunction); and when the save
succeeds but the removal raises, `favicon.ico` is on disk while the run
reports a favicon failure (second conjunct; the first shows the counter
gets no favicon contribution then). -/
theorem claim_C9 (env : Env) (fs0 : FS) (h : (fs0 svg_path).isSome) :
    ((main_run env fs0).2.successCount
        = sizes.countP (fun s => (env.sizeRaster s).isNone)
          + (if env.favRaster = none ∧ env.favOpen = none ∧ env.favSave = none
                ∧ env.favRemove = none then 1 else 0)
          + (if env.touchRaster = none then 1 else 0))
      ∧ (env.favRaster = none → env.favOpen = none → env.favSave = none →
          ∀ e, env.favRemove = some e →
            (main_run env fs0).2.fs favicon_path = some (.ico [(32, 32)])
              ∧ ("  ❌ Failed to generate favicon: " ++ e)
                  ∈ (main_run env fs0).2.output) := by
  constructor
  · rw [main_run_snd, generate_count_eq env fs0 h, totalCount]
  · intro hr ho hs e hrem
    constructor
    · rw [main_run_snd, generate_fs_fav env fs0 h]
      simp [hr, ho, hs]
    · rw [main_run_snd, generate_output_eq env fs0 h]
      have hl : favLine env = "  ❌ Failed to generate favicon: " ++ e := by
        simp [favLine, hr, ho, hs, hrem]
      rw [← hl]
      simp

/-- Claim C9 witness: with only the temp-file removal failing, the ICO is
on disk, the favicon failure is reported, and the counter omits the
favicon (9 of 10). -/
theorem claim_C9_witness :
    (fsInit svg_path).isSome = true
      ∧ (main_run envRemoveFail fsInit).2.fs favicon_path = some (.ico [(32, 32)])
      ∧ ("  ❌ Failed to generate favicon: " ++ "permission denied")
          ∈ (main_run envRemoveFail fsInit).2.output
      ∧ (main_run envRemoveFail fsInit).2.successCount
          = sizes.countP (fun s => (envRemoveFail.sizeRaster s).isNone)
            + (if envRemoveFail.favRaster = none ∧ envRemoveFail.favOpen = none
                  ∧ envRemoveFail.favSave = none ∧ envRemoveFail.favRemove = none
                then 1 else 0)
            + (if envRemoveFail.touchRaster = none then 1 else 0) :=
  ⟨by decide,
    ((claim_C9 envRemoveFail fsInit (by decide)).2 rfl rfl rfl
      "permission denied" rfl).1,
    ((claim_C9 envRemoveFail fsInit (by decide)).2 rfl rfl rfl
      "permission denied" rfl).2,
    (claim_C9 envRemoveFail fsInit (by decide)).1⟩

/-- Claim C10: when the initial imports fail, the module-level block — run
at load time, before any source validation or generation work — invokes the
pip-install subprocess and retries the imports; if the retry succeeds the
program proceeds exactly as a normal run (install diagnostics first, then
the generation output); if the retry also fails, the process dies with exit
1 before any generation work, outside the top-level handler (no
`❌ Error:` line is printed: the output is exactly the two install
diagnostics, and the filesystem is untouched). -/
theorem claim_C10 (importOk : Bool) (h : importOk = false) (env : Env)
    (fs0 : FS) :
    ((run_process importOk true env fs0).2.1 = true
      ∧ (run_process importOk true env fs0).2.2.1 = true
      ∧ (run_process importOk true env fs0).1 = (main_run env fs0).1
      ∧ (run_process importOk true env fs0).2.2.2.output
          = ["❌ Required packages not installed",
             "Installing required packages..."] ++ (main_run env fs0).2.output)
      ∧ ((run_process importOk false env fs0).1 = 1
          ∧ (run_process importOk false env fs0).2.1 = true
          ∧ (run_process importOk false env fs0).2.2.1 = false
          ∧ (run_process importOk false env fs0).2.2.2.fs = fs0
          ∧ (run_process importOk false env fs0).2.2.2.output
              = ["❌ Required packages not installed",
                 "Installing required packages..."]) := by
  subst h
  exact ⟨⟨rfl, rfl, rfl, rfl⟩, ⟨rfl, rfl, rfl, rfl, rfl⟩⟩

/-- Claim C10 witness: with imports failing once, pip is invoked and the
run proceeds; with both import attempts failing, the process exits 1. -/
theorem claim_C10_witness :
    (run_process false true envOK fsInit).2.1 = true
      ∧ (run_process false false envOK fsInit).1 = 1 :=
  ⟨(claim_C10 false rfl envOK fsInit).1.1, (claim_C10 false rfl envOK fsInit).2.1⟩

end CBV
